import Mathlib

/-!
Verification development for a dynamic-binary-translator (JIT) based CPU
emulator and its surrounding service code.

Shallow embedding conventions:
- 32-bit machine words are `Nat` reduced `% 2^32` where overflow matters;
- register bit-sets (`BitSet32` in the source) are `Nat` bitmasks `< 2^32`;
- stateful C++ functions become explicit state-passing Lean functions;
- fallible operations return `Option`.
-/

namespace Spec2Proof

/-! ### Host register encodings (x64)

Modelled from the spec: the emitter's register enumeration (`Gen::X64Reg` in
`emitter.h`, not part of the provided sources) uses the standard x64 hardware
encodings RAX=0, RCX=1, RDX=2, RBX=3, RSP=4, RBP=5, RSI=6, RDI=7, R8..R15=8..15
and XMM0..XMM15=0..15; XMM registers occupy the upper 16 bits of a 32-bit
register bit-set (`xmm0-xmm15 use the upper 16 bits`, per `abi.h`). -/

namespace Gen

def RAX : Nat := 0
def RCX : Nat := 1
def RDX : Nat := 2
def RBX : Nat := 3
def RSP : Nat := 4
def RBP : Nat := 5
def RSI : Nat := 6
def RDI : Nat := 7
def R8 : Nat := 8
def R9 : Nat := 9
def R10 : Nat := 10
def R11 : Nat := 11
def R12 : Nat := 12
def R13 : Nat := 13
def R14 : Nat := 14
def R15 : Nat := 15
def XMM0 : Nat := 0
def XMM1 : Nat := 1
def XMM2 : Nat := 2
def XMM3 : Nat := 3
def XMM4 : Nat := 4
def XMM5 : Nat := 5

end Gen

/-! ### ABI descriptor (`abi.h`)

The source builds `BitSet32 { regs... }` register sets and defines
`ABI_ALL_CALLEE_SAVED` as `(~ABI_ALL_CALLER_SAVED)`, the bitwise complement
over the 32-bit bit-set. Both host platforms (Windows x64 and Linux/OS X
System V) are embedded; the source selects one with the preprocessor. -/

/-- Embedding of `BitSet32 { r1, r2, ... }`: the bitmask with those bits set. -/
def BitSet32 (regs : List Nat) : Nat :=
  regs.foldl (fun s r => s ||| (1 <<< r)) 0

/-- Embedding of `operator~` on `BitSet32`: bitwise complement over 32 bits. -/
def bitNot32 (x : Nat) : Nat := 0xffffffff ^^^ x

def ABI_ALL_FPRS : Nat := 0xffff0000

def ABI_ALL_GPRS : Nat := 0x0000ffff

namespace Win64

def ABI_PARAM1 : Nat := Gen.RCX
def ABI_PARAM2 : Nat := Gen.RDX
def ABI_PARAM3 : Nat := Gen.R8
def ABI_PARAM4 : Nat := Gen.R9

def ABI_ALL_CALLER_SAVED : Nat :=
  BitSet32 [Gen.RAX, Gen.RCX, Gen.RDX, Gen.R8, Gen.R9, Gen.R10, Gen.R11,
            Gen.XMM0+16, Gen.XMM1+16, Gen.XMM2+16, Gen.XMM3+16, Gen.XMM4+16, Gen.XMM5+16]

def ABI_ALL_CALLEE_SAVED : Nat := bitNot32 ABI_ALL_CALLER_SAVED

end Win64

namespace SysV

def ABI_PARAM1 : Nat := Gen.RDI
def ABI_PARAM2 : Nat := Gen.RSI
def ABI_PARAM3 : Nat := Gen.RDX
def ABI_PARAM4 : Nat := Gen.RCX
def ABI_PARAM5 : Nat := Gen.R8
def ABI_PARAM6 : Nat := Gen.R9

def ABI_ALL_CALLER_SAVED : Nat :=
  BitSet32 [Gen.RAX, Gen.RCX, Gen.RDX, Gen.RDI, Gen.RSI, Gen.R8, Gen.R9, Gen.R10, Gen.R11] |||
  ABI_ALL_FPRS

def ABI_ALL_CALLEE_SAVED : Nat := bitNot32 ABI_ALL_CALLER_SAVED

end SysV

def ABI_RETURN : Nat := Gen.RAX

/-- C3: On every supported host platform the callee-saved set is exactly the
bitwise complement of the caller-saved set over the 32-bit register bit-set
(GPRs in the low 16 bits, XMM registers in the high 16 bits), so every host
register is classified as exactly one of caller-saved or callee-saved. -/
theorem abi_callee_saved_complements_caller_saved :
    (Win64.ABI_ALL_CALLEE_SAVED = bitNot32 Win64.ABI_ALL_CALLER_SAVED ∧
     SysV.ABI_ALL_CALLEE_SAVED = bitNot32 SysV.ABI_ALL_CALLER_SAVED) ∧
    (ABI_ALL_GPRS = 0x0000ffff ∧ ABI_ALL_FPRS = 0xffff0000 ∧
     ABI_ALL_GPRS ||| ABI_ALL_FPRS = 0xffffffff) ∧
    (∀ r : Fin 32,
      (Nat.testBit Win64.ABI_ALL_CALLEE_SAVED r.val ↔
        ¬ Nat.testBit Win64.ABI_ALL_CALLER_SAVED r.val)) ∧
    (∀ r : Fin 32,
      (Nat.testBit SysV.ABI_ALL_CALLEE_SAVED r.val ↔
        ¬ Nat.testBit SysV.ABI_ALL_CALLER_SAVED r.val)) := by
  decide

/-- C4: On every supported host platform every designated argument-passing
register and the return register (RAX) is a member of the caller-saved set. -/
theorem abi_param_and_return_registers_are_caller_saved :
    (Nat.testBit Win64.ABI_ALL_CALLER_SAVED Win64.ABI_PARAM1 ∧
     Nat.testBit Win64.ABI_ALL_CALLER_SAVED Win64.ABI_PARAM2 ∧
     Nat.testBit Win64.ABI_ALL_CALLER_SAVED Win64.ABI_PARAM3 ∧
     Nat.testBit Win64.ABI_ALL_CALLER_SAVED Win64.ABI_PARAM4 ∧
     Nat.testBit Win64.ABI_ALL_CALLER_SAVED ABI_RETURN) ∧
    (Nat.testBit SysV.ABI_ALL_CALLER_SAVED SysV.ABI_PARAM1 ∧
     Nat.testBit SysV.ABI_ALL_CALLER_SAVED SysV.ABI_PARAM2 ∧
     Nat.testBit SysV.ABI_ALL_CALLER_SAVED SysV.ABI_PARAM3 ∧
     Nat.testBit SysV.ABI_ALL_CALLER_SAVED SysV.ABI_PARAM4 ∧
     Nat.testBit SysV.ABI_ALL_CALLER_SAVED SysV.ABI_PARAM5 ∧
     Nat.testBit SysV.ABI_ALL_CALLER_SAVED SysV.ABI_PARAM6 ∧
     Nat.testBit SysV.ABI_ALL_CALLER_SAVED ABI_RETURN) := by
  decide

/-! ### Audio output-sink configuration dialog (`configure_audio.cpp`) -/

/-- Model of the Qt combo box holding the output-sink choices: its item list
and the currently selected index. -/
structure ComboBox where
  items : List String
  currentIndex : Nat
  deriving Repr, DecidableEq

def ComboBox.count (b : ComboBox) : Nat := b.items.length

def ComboBox.itemText (b : ComboBox) (i : Nat) : String := b.items.getD i ""

def ComboBox.setCurrentIndex (b : ComboBox) (i : Nat) : ComboBox :=
  { b with currentIndex := i }

/-- Embedding of the `for` loop in `ConfigureAudio::setConfiguration`: scan the
indices in order; at the first index whose text equals the stored sink id, set
the current index and break. -/
def setConfigurationLoop (sink_id : String) (b : ComboBox) : ComboBox :=
  match (List.range b.count).find? (fun i => b.itemText i = sink_id) with
  | some i => b.setCurrentIndex i
  | none => b

/-- Embedding of `ConfigureAudio::setConfiguration`: the search loop followed by
the unconditional `setCurrentIndex(0)`. -/
def setConfiguration (sink_id : String) (b : ComboBox) : ComboBox :=
  (setConfigurationLoop sink_id b).setCurrentIndex 0

/-- C10: For every stored sink id and every list of available sinks,
`setConfiguration` leaves the combo box with current index 0 (and the item list
unchanged): the unconditional `setCurrentIndex(0)` after the search loop
overwrites any index selected by the loop. -/
theorem setConfiguration_always_selects_index_zero
    (sink_id : String) (b : ComboBox) :
    (setConfiguration sink_id b).currentIndex = 0 ∧
    (setConfiguration sink_id b).items = b.items := by
  unfold setConfiguration setConfigurationLoop
  cases h : (List.range b.count).find? (fun i => b.itemText i = sink_id) <;>
    simp [ComboBox.setCurrentIndex]

/-! ### Guest ISA, Processor State and Interpreter

Modelled from the spec: the guest CPU (spec sections 2-4) is a 32-bit
condition-coded RISC with 16 general registers and an NZCV flags word; the
Instruction Decoder, Interpreter, Block Compiler and Dispatcher themselves are
not among the provided sources (only the per-instruction JIT visitor files
are), so they are embedded faithfully to the spec's words. The operation
classes include the nine interpreter-only classes whose visitor functions are
in `qadd_qsub.cpp`, `reversal.cpp` and `usad.cpp`. -/

/-- Reduction of a value to a 32-bit machine word. -/
def w32 (x : Nat) : Nat := x % 2^32

/-- Guest condition codes: the 4-bit ARM-style condition field. -/
inductive CondCode
  | EQ | NE | CS | CC | MI | PL | VS | VC | HI | LS | GE | LT | GT | LE | AL | NV
  deriving DecidableEq, Repr

/-- Evaluation of a condition code from the four flag bits N, Z, C, V.
This table is the single architectural definition of the conditions; the
interpreter feeds it the guest flag layout and the generated native code feeds
it the mirrored host flag layout. -/
def condPassedBits (n z c v : Bool) : CondCode → Bool
  | .EQ => z
  | .NE => !z
  | .CS => c
  | .CC => !c
  | .MI => n
  | .PL => !n
  | .VS => v
  | .VC => !v
  | .HI => c && !z
  | .LS => !c || z
  | .GE => n == v
  | .LT => n != v
  | .GT => !z && (n == v)
  | .LE => z || (n != v)
  | .AL => true
  | .NV => false

/-- Guest flags layout (CPSR-style): N bit 31, Z bit 30, C bit 29, V bit 28. -/
def condPassed (f : Nat) (cc : CondCode) : Bool :=
  condPassedBits (f.testBit 31) (f.testBit 30) (f.testBit 29) (f.testBit 28) cc

/-- Host-side mirror of the guest flags (x64 RFLAGS layout: SF bit 7, ZF bit 6,
CF bit 0, OF bit 11), as maintained by the generated native code. -/
def mirrorFlags (f : Nat) : Nat :=
  (if f.testBit 31 then 0x80 else 0) |||
  (if f.testBit 30 then 0x40 else 0) |||
  (if f.testBit 29 then 0x1 else 0) |||
  (if f.testBit 28 then 0x800 else 0)

/-- Condition evaluation performed by emitted native code, reading the host
flag layout. -/
def hostCondPassed (h : Nat) (cc : CondCode) : Bool :=
  condPassedBits (h.testBit 7) (h.testBit 6) (h.testBit 0) (h.testBit 11) cc

theorem mirrorFlags_bits (f : Nat) :
    (mirrorFlags f).testBit 7 = f.testBit 31 ∧
    (mirrorFlags f).testBit 6 = f.testBit 30 ∧
    (mirrorFlags f).testBit 0 = f.testBit 29 ∧
    (mirrorFlags f).testBit 11 = f.testBit 28 := by
  cases h31 : f.testBit 31 <;> cases h30 : f.testBit 30 <;>
    cases h29 : f.testBit 29 <;> cases h28 : f.testBit 28 <;>
      simp [mirrorFlags, h31, h30, h29, h28] <;> decide

theorem hostCondPassed_mirrorFlags (f : Nat) (cc : CondCode) :
    hostCondPassed (mirrorFlags f) cc = condPassed f cc := by
  unfold hostCondPassed condPassed
  rw [(mirrorFlags_bits f).1, (mirrorFlags_bits f).2.1,
      (mirrorFlags_bits f).2.2.1, (mirrorFlags_bits f).2.2.2]

/-- Guest operation classes (closed enumeration, spec 3 `Decoded Instruction`).
The nine classes QADD..USADA8 are the ones whose JIT visitors appear in the
provided sources; SVC and BKPT are the trap classes that make the dispatcher
return to its caller. -/
inductive OpClass
  | ADD | SUB | MOV | B
  | QADD | QSUB | QDADD | QDSUB
  | REV | REV16 | REVSH
  | USAD8 | USADA8
  | SVC | BKPT
  deriving DecidableEq, Repr

/-- Decoded Instruction (spec 3): operation tag, operand register indices, a
4-bit condition code and the byte length. -/
structure DecodedInstruction where
  op : OpClass
  cond : CondCode
  rd : Fin 16
  rn : Fin 16
  rm : Fin 16
  ra : Fin 16
  imm : Nat
  length : Nat
  deriving DecidableEq, Repr

/-- Processor State (spec 3): 16 general-purpose 32-bit registers, a flags
word, the instruction pointer and the execution mode bits. -/
structure ProcessorState where
  regs : Fin 16 → Nat
  cpsr : Nat
  pc : Nat
  mode : Nat

/-- Register read: registers are 32-bit fields. -/
def ProcessorState.get (s : ProcessorState) (r : Fin 16) : Nat := w32 (s.regs r)

/-- Register write: values are truncated to 32 bits. -/
def ProcessorState.set (s : ProcessorState) (r : Fin 16) (v : Nat) : ProcessorState :=
  { s with regs := fun x => if x = r then w32 v else s.regs x }

def ProcessorState.advance (s : ProcessorState) (len : Nat) : ProcessorState :=
  { s with pc := w32 (s.pc + len) }

/-- Interpretation of a 32-bit word as a signed integer. -/
def toSigned (x : Nat) : Int := if x < 2^31 then (x : Int) else (x : Int) - 2^32

/-- Signed 32-bit saturation. -/
def satSigned (x : Int) : Int := max (-(2^31)) (min (2^31 - 1) x)

/-- Conversion of an in-range signed integer back to a 32-bit word. -/
def fromSigned (x : Int) : Nat := (x % 2^32).toNat

/-- Byte `i` of a 32-bit word. -/
def byteOf (x i : Nat) : Nat := (x >>> (8*i)) % 256

/-- Byte-reversal of a 32-bit word (REV). -/
def rev32 (x : Nat) : Nat :=
  (byteOf x 0 <<< 24) ||| (byteOf x 1 <<< 16) ||| (byteOf x 2 <<< 8) ||| byteOf x 3

/-- Byte-reversal within each halfword (REV16). -/
def rev16of (x : Nat) : Nat :=
  (byteOf x 2 <<< 24) ||| (byteOf x 3 <<< 16) ||| (byteOf x 0 <<< 8) ||| byteOf x 1

/-- Sign extension of a 16-bit value to 32 bits. -/
def sext16 (x : Nat) : Nat :=
  if x.testBit 15 then 0xffff0000 ||| (x % 2^16) else x % 2^16

/-- Byte-reversed signed halfword (REVSH). -/
def revshOf (x : Nat) : Nat := sext16 ((byteOf x 0 <<< 8) ||| byteOf x 1)

/-- Absolute difference of two bytes. -/
def absDiff (a b : Nat) : Nat := max a b - min a b

/-- Sum of absolute byte differences (USAD8). -/
def usad8of (a b : Nat) : Nat :=
  absDiff (byteOf a 0) (byteOf b 0) + absDiff (byteOf a 1) (byteOf b 1) +
  absDiff (byteOf a 2) (byteOf b 2) + absDiff (byteOf a 3) (byteOf b 3)

/-- Architectural 32-bit subtraction as the interpreter defines it: exact
integer subtraction reduced modulo 2^32. -/
def sub32 (a b : Nat) : Nat := (((a : Int) - (b : Int)) % (2^32 : Int)).toNat

/-- Architectural effect of one instruction whose condition passed (the
Interpreter's per-class execute table, spec 4.4; control-flow changes are
reported through the Processor State's instruction pointer). -/
def executeOp (i : DecodedInstruction) (s : ProcessorState) : ProcessorState :=
  match i.op with
  | .ADD => (s.set i.rd (s.get i.rn + s.get i.rm)).advance i.length
  | .SUB => (s.set i.rd (sub32 (s.get i.rn) (s.get i.rm))).advance i.length
  | .MOV => (s.set i.rd (s.get i.rm)).advance i.length
  | .B => { s with pc := w32 i.imm }
  | .QADD => (s.set i.rd (fromSigned (satSigned (toSigned (s.get i.rm) + toSigned (s.get i.rn))))).advance i.length
  | .QSUB => (s.set i.rd (fromSigned (satSigned (toSigned (s.get i.rm) - toSigned (s.get i.rn))))).advance i.length
  | .QDADD => (s.set i.rd (fromSigned (satSigned (toSigned (s.get i.rm) + satSigned (2 * toSigned (s.get i.rn)))))).advance i.length
  | .QDSUB => (s.set i.rd (fromSigned (satSigned (toSigned (s.get i.rm) - satSigned (2 * toSigned (s.get i.rn)))))).advance i.length
  | .REV => (s.set i.rd (rev32 (s.get i.rm))).advance i.length
  | .REV16 => (s.set i.rd (rev16of (s.get i.rm))).advance i.length
  | .REVSH => (s.set i.rd (revshOf (s.get i.rm))).advance i.length
  | .USAD8 => (s.set i.rd (usad8of (s.get i.rn) (s.get i.rm))).advance i.length
  | .USADA8 => (s.set i.rd (usad8of (s.get i.rn) (s.get i.rm) + s.get i.ra)).advance i.length
  | .SVC => s.advance i.length
  | .BKPT => s.advance i.length

/-- Embedding of `InterpretOne(DecodedInstruction, ProcessorState&)` (spec 6):
execute one decoded instruction with full architectural precision, checking
its condition against the guest flags. -/
def interpretOne (i : DecodedInstruction) (s : ProcessorState) : ProcessorState :=
  if condPassed s.cpsr i.cond then executeOp i s else s.advance i.length

/-! ### Block Compiler emission: native translation vs. interpreter call-out

The nine visitor methods below are the direct embedding of the provided
sources `qadd_qsub.cpp`, `reversal.cpp` and `usad.cpp`: each body is exactly
`CompileInterpretInstruction()`. The strategy table, native translation and
ABI-bridge call-out semantics are modelled from the spec (4.2, 4.3). -/

/-- Code emitted for one decoded instruction: native host code translating it
directly, or an ABI-bridge call-out into the Interpreter. There is no error
alternative: routing to the interpreter is not an error (spec 7). -/
inductive EmitAction
  | nativeCode (i : DecodedInstruction)
  | interpretCallout (i : DecodedInstruction)
  deriving DecidableEq, Repr

/-- Embedding of `JitX64::CompileInterpretInstruction()`: emit the ABI-bridge
call-out that invokes the Interpreter on the current decoded instruction and
the Processor State. -/
def CompileInterpretInstruction (i : DecodedInstruction) : EmitAction :=
  EmitAction.interpretCallout i

namespace JitX64

/-- Embedding of `JitX64::QADD() { CompileInterpretInstruction(); }`. -/
def QADD (i : DecodedInstruction) : EmitAction := CompileInterpretInstruction i

/-- Embedding of `JitX64::QSUB() { CompileInterpretInstruction(); }`. -/
def QSUB (i : DecodedInstruction) : EmitAction := CompileInterpretInstruction i

/-- Embedding of `JitX64::QDADD() { CompileInterpretInstruction(); }`. -/
def QDADD (i : DecodedInstruction) : EmitAction := CompileInterpretInstruction i

/-- Embedding of `JitX64::QDSUB() { CompileInterpretInstruction(); }`. -/
def QDSUB (i : DecodedInstruction) : EmitAction := CompileInterpretInstruction i

/-- Embedding of `JitX64::REV() { CompileInterpretInstruction(); }`. -/
def REV (i : DecodedInstruction) : EmitAction := CompileInterpretInstruction i

/-- Embedding of `JitX64::REV16() { CompileInterpretInstruction(); }`. -/
def REV16 (i : DecodedInstruction) : EmitAction := CompileInterpretInstruction i

/-- Embedding of `JitX64::REVSH() { CompileInterpretInstruction(); }`. -/
def REVSH (i : DecodedInstruction) : EmitAction := CompileInterpretInstruction i

/-- Embedding of `JitX64::USAD8() { CompileInterpretInstruction(); }`. -/
def USAD8 (i : DecodedInstruction) : EmitAction := CompileInterpretInstruction i

/-- Embedding of `JitX64::USADA8() { CompileInterpretInstruction(); }`. -/
def USADA8 (i : DecodedInstruction) : EmitAction := CompileInterpretInstruction i

end JitX64

/-- Per-operation-class codegen strategy (spec 4.2): natively translatable or
interpreter-only. -/
inductive CodegenStrategy
  | native
  | interpreterOnly
  deriving DecidableEq, Repr

/-- The strategy table. The interpreter-only entries are exactly the classes
whose JIT visitors call `CompileInterpretInstruction` in the provided sources,
plus the trap classes (which must return to the dispatcher anyway). -/
def strategy : OpClass → CodegenStrategy
  | .ADD | .SUB | .MOV | .B => .native
  | _ => .interpreterOnly

/-- The Block Compiler's per-instruction step: dispatch to the per-class
visitor; the interpreter-only visitors are the embedded source functions. -/
def compileInstruction (i : DecodedInstruction) : EmitAction :=
  match i.op with
  | .QADD => JitX64.QADD i
  | .QSUB => JitX64.QSUB i
  | .QDADD => JitX64.QDADD i
  | .QDSUB => JitX64.QDSUB i
  | .REV => JitX64.REV i
  | .REV16 => JitX64.REV16 i
  | .REVSH => JitX64.REVSH i
  | .USAD8 => JitX64.USAD8 i
  | .USADA8 => JitX64.USADA8 i
  | .SVC => CompileInterpretInstruction i
  | .BKPT => CompileInterpretInstruction i
  | _ => EmitAction.nativeCode i

/-- Host 32-bit subtraction as the emitted x64 code computes it: addition of
the two's complement, reduced to 32 bits. -/
def hostSub32 (a b : Nat) : Nat := (a + (2^32 - b)) % 2^32

/-- Effect of the native host code the Block Compiler emits for the natively
translated classes. Interpreter-only classes never reach this function
(`compileInstruction` emits a call-out for them); their alternative is inert. -/
def hostExecOp (i : DecodedInstruction) (s : ProcessorState) : ProcessorState :=
  match i.op with
  | .ADD => (s.set i.rd (s.get i.rn + s.get i.rm)).advance i.length
  | .SUB => (s.set i.rd (hostSub32 (s.get i.rn) (s.get i.rm))).advance i.length
  | .MOV => (s.set i.rd (s.get i.rm)).advance i.length
  | .B => { s with pc := w32 i.imm }
  | _ => s

/-- Machine semantics of one emitted code sequence: native code evaluates the
guest condition from the mirrored host flags and performs its translated
effect only when it passes; a call-out synchronously invokes the Interpreter
on the Processor State (spec 4.3). -/
def runEmitAction (a : EmitAction) (s : ProcessorState) : ProcessorState :=
  match a with
  | .nativeCode i =>
      if hostCondPassed (mirrorFlags s.cpsr) i.cond then hostExecOp i s
      else s.advance i.length
  | .interpretCallout i => interpretOne i s

theorem w32_lt (x : Nat) : w32 x < 2^32 := Nat.mod_lt _ (by norm_num)

theorem ProcessorState.get_lt (s : ProcessorState) (r : Fin 16) :
    s.get r < 2^32 := w32_lt _

theorem sub32_eq_hostSub32 (a b : Nat) (hb : b < 2^32) :
    sub32 a b = hostSub32 a b := by
  unfold sub32 hostSub32
  omega

/-- Per-instruction agreement between the code the Block Compiler emits and
the Interpreter: the key lemma behind the JIT/interpreter equivalence. -/
theorem compiled_code_agrees_with_interpreter (i : DecodedInstruction)
    (s : ProcessorState) :
    runEmitAction (compileInstruction i) s = interpretOne i s := by
  obtain ⟨op, cc, rd, rn, rm, ra, imm, len⟩ := i
  cases op
  case ADD =>
    simp only [compileInstruction, runEmitAction, hostCondPassed_mirrorFlags,
      hostExecOp, interpretOne, executeOp]
  case SUB =>
    simp only [compileInstruction, runEmitAction, hostCondPassed_mirrorFlags,
      hostExecOp, interpretOne, executeOp]
    rw [sub32_eq_hostSub32 _ _ (ProcessorState.get_lt s rm)]
  case MOV =>
    simp only [compileInstruction, runEmitAction, hostCondPassed_mirrorFlags,
      hostExecOp, interpretOne, executeOp]
  case B =>
    simp only [compileInstruction, runEmitAction, hostCondPassed_mirrorFlags,
      hostExecOp, interpretOne, executeOp]
  all_goals rfl

/-- Execution of a finalized Compiled Block: run the emitted code sequence of
each instruction in order (native code plus interpreter call-outs). -/
def runBlockJit (block : List DecodedInstruction) (s : ProcessorState) : ProcessorState :=
  block.foldl (fun s i => runEmitAction (compileInstruction i) s) s

/-- Pure interpretation of the same Basic Block Descriptor. -/
def runBlockInterp (block : List DecodedInstruction) (s : ProcessorState) : ProcessorState :=
  block.foldl (fun s i => interpretOne i s) s

/-- C1: for all guest instruction sequences and all initial Processor States,
executing via the JIT (native code plus interpreter call-outs) produces a
final Processor State identical to executing the same sequence purely through
the Interpreter; a finalized Compiled Block behaves identically to
interpreting its source Basic Block Descriptor for every Processor State. -/
theorem jit_execution_equals_interpreter_execution
    (block : List DecodedInstruction) (s : ProcessorState) :
    runBlockJit block s = runBlockInterp block s := by
  induction block generalizing s with
  | nil => rfl
  | cons i rest ih =>
    simp only [runBlockJit, runBlockInterp, List.foldl_cons] at *
    rw [compiled_code_agrees_with_interpreter]
    exact ih _

/-- The operation classes the strategy table marks interpreter-only in the
provided sources. -/
def interpreterOnlyClasses : List OpClass :=
  [.QADD, .QSUB, .QDADD, .QDSUB, .REV, .REV16, .REVSH, .USAD8, .USADA8]

/-- C2: for every operation class marked interpreter-only by the strategy
table — each of QADD, QSUB, QDADD, QDSUB, REV, REV16, REVSH, USAD8, USADA8 —
compiling an instruction of that class emits the `CompileInterpretInstruction`
call-out to the Interpreter, never native translation; the routing is not an
error (the emission type has no error alternative) and is invisible to the
guest (the emitted code's effect equals the Interpreter's on every state). -/
theorem interpreter_only_classes_emit_callout (i : DecodedInstruction)
    (h : i.op ∈ interpreterOnlyClasses) :
    strategy i.op = CodegenStrategy.interpreterOnly ∧
    compileInstruction i = CompileInterpretInstruction i ∧
    (∀ j : DecodedInstruction, compileInstruction i ≠ EmitAction.nativeCode j) ∧
    (∀ s : ProcessorState, runEmitAction (compileInstruction i) s = interpretOne i s) := by
  obtain ⟨op, cc, rd, rn, rm, ra, imm, len⟩ := i
  simp only [interpreterOnlyClasses, List.mem_cons, List.not_mem_nil, or_false] at h
  rcases h with h | h | h | h | h | h | h | h | h <;> subst h <;>
    refine ⟨rfl, rfl, ?_, fun s => compiled_code_agrees_with_interpreter _ s⟩ <;>
      intro j hc <;>
        simp only [compileInstruction, CompileInterpretInstruction, JitX64.QADD,
          JitX64.QSUB, JitX64.QDADD, JitX64.QDSUB, JitX64.REV, JitX64.REV16,
          JitX64.REVSH, JitX64.USAD8, JitX64.USADA8, reduceCtorEq] at hc

/-- Witness for C2 at a concrete QADD instruction. -/
theorem interpreter_only_classes_emit_callout_witness :
    strategy (DecodedInstruction.mk .QADD .AL 1 2 3 0 0 4).op = CodegenStrategy.interpreterOnly ∧
    compileInstruction ⟨.QADD, .AL, 1, 2, 3, 0, 0, 4⟩ =
      CompileInterpretInstruction ⟨.QADD, .AL, 1, 2, 3, 0, 0, 4⟩ ∧
    (∀ j : DecodedInstruction,
      compileInstruction ⟨.QADD, .AL, 1, 2, 3, 0, 0, 4⟩ ≠ EmitAction.nativeCode j) ∧
    (∀ s : ProcessorState,
      runEmitAction (compileInstruction ⟨.QADD, .AL, 1, 2, 3, 0, 0, 4⟩) s =
        interpretOne ⟨.QADD, .AL, 1, 2, 3, 0, 0, 4⟩ s) :=
  interpreter_only_classes_emit_callout ⟨.QADD, .AL, 1, 2, 3, 0, 0, 4⟩ (by decide)

/-! ### Instruction Decoder

Modelled from the spec: the decoder (spec 4.1, 6) consumes a 32-bit guest
instruction word and its address and returns a Decoded Instruction, or fails
(`UndefinedInstruction`, embedded as `none`) when the bit pattern matches no
defined operation. Bit patterns follow the guest architecture's encodings:
condition in bits 28-31, the class-selecting fields in bits 24-27 / 20-23 /
4-7, register operands in bits 16-19 / 12-15 / 8-11 / 0-3. -/

/-- Bits 24-27 of an instruction word. -/
def hi4 (w : Nat) : Nat := (w >>> 24) % 16

/-- Bits 20-23 of an instruction word. -/
def lo4 (w : Nat) : Nat := (w >>> 20) % 16

/-- Bits 4-7 of an instruction word. -/
def sel4 (w : Nat) : Nat := (w >>> 4) % 16

/-- Bits 8-11 of an instruction word (the accumulate operand field). -/
def ra4 (w : Nat) : Nat := (w >>> 8) % 16

/-- Decision of whether a word's bit pattern belongs to a given operation
class. The patterns are the per-class encodings the decoder recognizes. -/
def matchesClass (k : OpClass) (w : Nat) : Bool :=
  match k with
  | .ADD => hi4 w == 0 && lo4 w == 8
  | .SUB => hi4 w == 0 && lo4 w == 4
  | .MOV => hi4 w == 1 && lo4 w == 0xA && sel4 w == 0
  | .B => hi4 w == 0xA
  | .QADD => hi4 w == 1 && lo4 w == 0 && sel4 w == 5
  | .QSUB => hi4 w == 1 && lo4 w == 2 && sel4 w == 5
  | .QDADD => hi4 w == 1 && lo4 w == 4 && sel4 w == 5
  | .QDSUB => hi4 w == 1 && lo4 w == 6 && sel4 w == 5
  | .REV => hi4 w == 6 && lo4 w == 0xB && sel4 w == 3
  | .REV16 => hi4 w == 6 && lo4 w == 0xB && sel4 w == 0xB
  | .REVSH => hi4 w == 6 && lo4 w == 0xF && sel4 w == 0xB
  | .USAD8 => hi4 w == 7 && lo4 w == 8 && sel4 w == 1 && ra4 w == 0xF
  | .USADA8 => hi4 w == 7 && lo4 w == 8 && sel4 w == 1 && !(ra4 w == 0xF)
  | .SVC => hi4 w == 0xF
  | .BKPT => hi4 w == 1 && lo4 w == 2 && sel4 w == 7

/-- Translation of the 4-bit condition field. -/
def condOfNat (n : Nat) : CondCode :=
  match n % 16 with
  | 0 => .EQ | 1 => .NE | 2 => .CS | 3 => .CC
  | 4 => .MI | 5 => .PL | 6 => .VS | 7 => .VC
  | 8 => .HI | 9 => .LS | 10 => .GE | 11 => .LT
  | 12 => .GT | 13 => .LE | 14 => .AL | _ => .NV

/-- Construction of the Decoded Instruction for a recognized class: extract
the condition code, the operand register fields, the immediate field and the
fixed 4-byte length. -/
def mkDecoded (k : OpClass) (w : Nat) : DecodedInstruction :=
  { op := k
    cond := condOfNat ((w >>> 28) % 16)
    rd := ⟨(w >>> 12) % 16, by omega⟩
    rn := ⟨(w >>> 16) % 16, by omega⟩
    rm := ⟨w % 16, by omega⟩
    ra := ⟨(w >>> 8) % 16, by omega⟩
    imm := w % 2^24
    length := 4 }

/-- The closed enumeration of operation classes, in the order the decoder
tries their patterns. -/
def allOpClasses : List OpClass :=
  [.ADD, .SUB, .MOV, .B, .QADD, .QSUB, .QDADD, .QDSUB,
   .REV, .REV16, .REVSH, .USAD8, .USADA8, .SVC, .BKPT]

/-- Classification of a word into at most one operation class: the decoder's
pattern match, tried class by class. -/
def classify (w : Nat) : Option OpClass :=
  allOpClasses.find? (fun k => matchesClass k w)

/-- Embedding of `DecodeInstruction(word, address)`: returns a Decoded
Instruction or fails (`none` stands for `UndefinedInstruction`). The address
is not consulted — decoding is pure in the instruction word; PC-relative
computation happens at execution time from the Processor State. -/
def DecodeInstruction (word address : Nat) : Option DecodedInstruction :=
  (classify word).map (fun k => mkDecoded k word)

theorem matchesClass_disjoint (k1 k2 : OpClass) (w : Nat)
    (h1 : matchesClass k1 w = true) (h2 : matchesClass k2 w = true) : k1 = k2 := by
  cases k1 <;> cases k2 <;>
    first
      | rfl
      | (simp only [matchesClass, Bool.and_eq_true, beq_iff_eq, Bool.not_eq_true',
          beq_eq_false_iff_ne, ne_eq] at h1 h2
         omega)

theorem mem_allOpClasses (k : OpClass) : k ∈ allOpClasses := by
  cases k <;> simp [allOpClasses]

theorem classify_matches (w : Nat) (k : OpClass) (h : classify w = some k) :
    matchesClass k w = true := by
  unfold classify at h
  have h2 := List.find?_some h
  simpa using h2

theorem classify_none (w : Nat) (h : classify w = none) (k : OpClass) :
    matchesClass k w = false := by
  have := List.find?_eq_none.mp h k (mem_allOpClasses k)
  simpa using this

/-- C7: `DecodeInstruction` is total and pure: for every instruction word and
every address it returns either a Decoded Instruction or the
`UndefinedInstruction` failure (`none`), with no side effects and no
dependence on anything but the word; a defined instruction is classified into
exactly one operation class, and decoding fails exactly when no class's bit
pattern matches. -/
theorem decode_total_pure_and_uniquely_classifying (word address : Nat) :
    (∀ address2 : Nat, DecodeInstruction word address = DecodeInstruction word address2) ∧
    ((∃ d, DecodeInstruction word address = some d) ∨
      DecodeInstruction word address = none) ∧
    (∀ d : DecodedInstruction, DecodeInstruction word address = some d →
      matchesClass d.op word = true ∧ ∀ k, matchesClass k word = true → k = d.op) ∧
    (DecodeInstruction word address = none →
      ∀ k, matchesClass k word = false) := by
  refine ⟨fun _ => rfl, ?_, ?_, ?_⟩
  · cases h : DecodeInstruction word address with
    | none => exact Or.inr rfl
    | some d => exact Or.inl ⟨d, rfl⟩
  · intro d hd
    unfold DecodeInstruction at hd
    cases hc : classify word with
    | none => rw [hc] at hd; exact Option.noConfusion hd
    | some k =>
      rw [hc] at hd
      have he : mkDecoded k word = d := by injection hd
      subst he
      refine ⟨classify_matches word k hc, fun k2 h2 => ?_⟩
      exact matchesClass_disjoint k2 k word h2 (classify_matches word k hc)
  · intro hn k
    unfold DecodeInstruction at hn
    cases hc : classify word with
    | none => exact classify_none word hc k
    | some k0 => rw [hc] at hn; exact Option.noConfusion hn

/-- Witness for C7 at the spec's example word 0xE0811002, which decodes as an
ADD with destination register 1, operands register 1 and register 2, and
condition "always". -/
theorem decode_total_pure_and_uniquely_classifying_witness :
    ((∀ address2 : Nat, DecodeInstruction 0xE0811002 0 = DecodeInstruction 0xE0811002 address2) ∧
     ((∃ d, DecodeInstruction 0xE0811002 0 = some d) ∨
       DecodeInstruction 0xE0811002 0 = none) ∧
     (∀ d : DecodedInstruction, DecodeInstruction 0xE0811002 0 = some d →
       matchesClass d.op 0xE0811002 = true ∧
       ∀ k, matchesClass k 0xE0811002 = true → k = d.op) ∧
     (DecodeInstruction 0xE0811002 0 = none →
       ∀ k, matchesClass k 0xE0811002 = false)) ∧
    DecodeInstruction 0xE0811002 0 =
      some ⟨.ADD, .AL, 1, 1, 2, 0, 0x811002, 4⟩ :=
  ⟨decode_total_pure_and_uniquely_classifying 0xE0811002 0, by decide⟩

/-! ### Dispatcher

Modelled from the spec: `RunFrom(address) -> ExitReason` (spec 6) enters the
Dispatcher loop and returns when the guest raises a condition requiring
external handling. All communication across the native/interpreter boundary
happens through the Processor State and explicit return values: every function
in the embedding is total and returns a value, there is no host-exception
alternative in any type. `fuel` bounds the number of dispatch steps so the
loop is a total function; `none` means "still running" when fuel runs out. -/

/-- Reasons `RunFrom` returns to its caller (spec 6). -/
inductive ExitReason
  | SystemCall
  | UndefinedInstructionFault
  | Breakpoint
  deriving DecidableEq, Repr

/-- The Dispatcher state machine: decode-fail returns
`UndefinedInstructionFault` with the faulting Processor State as an explicit
return value; trap classes return `SystemCall`/`Breakpoint`; everything else
executes the block-compiled code for the instruction and re-enters. -/
def dispatcherLoop (code : Nat → Nat) :
    Nat → ProcessorState → Option (ExitReason × ProcessorState)
  | 0, _ => none
  | fuel+1, s =>
    match DecodeInstruction (code s.pc) s.pc with
    | none => some (ExitReason.UndefinedInstructionFault, s)
    | some i =>
      match i.op with
      | .SVC => some (ExitReason.SystemCall, interpretOne i s)
      | .BKPT => some (ExitReason.Breakpoint, interpretOne i s)
      | _ => dispatcherLoop code fuel (runEmitAction (compileInstruction i) s)

/-- Embedding of `RunFrom(address)`: enter the Dispatcher loop at the given
guest address. -/
def RunFrom (code : Nat → Nat) (fuel address : Nat) (s : ProcessorState) :
    Option (ExitReason × ProcessorState) :=
  dispatcherLoop code fuel { s with pc := address }

/-- C8: all guest-visible faults are reported to the Dispatcher's caller only
as the return value of `RunFrom`, an `ExitReason` drawn from {SystemCall,
UndefinedInstructionFault, Breakpoint}; in particular an undefined instruction
at the entry address yields the `UndefinedInstructionFault` return value
(never a host exception — the boundary's types are total). -/
theorem runFrom_reports_faults_only_as_exit_reason
    (code : Nat → Nat) (fuel address : Nat) (s : ProcessorState) :
    (∀ r s2, RunFrom code fuel address s = some (r, s2) →
      r = ExitReason.SystemCall ∨ r = ExitReason.UndefinedInstructionFault ∨
        r = ExitReason.Breakpoint) ∧
    (DecodeInstruction (code address) address = none →
      RunFrom code (fuel+1) address s =
        some (ExitReason.UndefinedInstructionFault, { s with pc := address })) := by
  constructor
  · intro r s2 _h
    cases r
    · exact Or.inl rfl
    · exact Or.inr (Or.inl rfl)
    · exact Or.inr (Or.inr rfl)
  · intro hdec
    simp [RunFrom, dispatcherLoop, hdec]

/-- Witness for C8: a memory of all-zero words (which decode rejects) makes
`RunFrom` return the undefined-instruction fault as a value. -/
theorem runFrom_reports_faults_only_as_exit_reason_witness :
    RunFrom (fun _ => 0) 1 0 ⟨fun _ => 0, 0, 0, 0⟩ =
      some (ExitReason.UndefinedInstructionFault, ⟨fun _ => 0, 0, 0, 0⟩) :=
  (runFrom_reports_faults_only_as_exit_reason (fun _ => 0) 0 0
    ⟨fun _ => 0, 0, 0, 0⟩).2 (by decide)

/-! ### Code Cache and invalidation

Modelled from the spec: the Code Cache (spec 3, 4.5) maps guest addresses to
Compiled Blocks, at most one per entry address; `InvalidateRange` evicts every
block whose source instruction span overlaps the written range, and every
surviving block's direct chain jumps into an evicted block are re-patched to
the dispatcher re-entry stub (the chain edge is severed) before control can
re-enter native code. -/

/-- Compiled Block cache metadata: its source instruction span and the guest
entry addresses of the blocks its code directly jumps into (chain edges). -/
structure CompiledBlock where
  spanStart : Nat
  spanLen : Nat
  succs : List Nat
  deriving DecidableEq, Repr

/-- The Code Cache: an arena of Compiled Blocks indexed by guest address
(spec 9), at most one block per guest entry address. -/
structure CodeCache where
  blocks : Nat → Option CompiledBlock

/-- Cache lookup at a guest address. -/
def lookupBlock (c : CodeCache) (a : Nat) : Option CompiledBlock :=
  c.blocks a

/-- Does a guest write to `[addr, addr+len)` overlap the block's source
instruction span `[spanStart, spanStart+spanLen)`? -/
def overlapsRange (addr len : Nat) (b : CompiledBlock) : Bool :=
  decide (addr < b.spanStart + b.spanLen) && decide (b.spanStart < addr + len)

/-- Is the block cached at address `t` evicted by a write to
`[addr, addr+len)`? -/
def isEvicted (c : CodeCache) (addr len t : Nat) : Bool :=
  match c.blocks t with
  | some b => overlapsRange addr len b
  | none => false

/-- Embedding of `InvalidateRange(address, length)`: evict every overlapping
block; re-patch every surviving block's chain edges into evicted blocks to
the dispatcher re-entry stub (drop the direct-jump edge). -/
def InvalidateRange (c : CodeCache) (addr len : Nat) : CodeCache :=
  { blocks := fun a =>
      match c.blocks a with
      | none => none
      | some b =>
        if overlapsRange addr len b then none
        else some { b with succs := b.succs.filter (fun t => !isEvicted c addr len t) } }

/-- C6: after an `InvalidateRange` whose range overlaps a cached block's source
span, a lookup at that block's guest address never returns the stale Compiled
Block, and no surviving block's code retains a direct chain jump into any
evicted block (such edges are re-patched to the dispatcher re-entry stub)
before the next Execute can run. -/
theorem invalidate_range_evicts_stale_blocks_and_chains
    (c : CodeCache) (addr len entry : Nat) (b : CompiledBlock)
    (hfind : lookupBlock c entry = some b)
    (hover : overlapsRange addr len b = true) :
    lookupBlock (InvalidateRange c addr len) entry = none ∧
    (∀ a b2, lookupBlock (InvalidateRange c addr len) a = some b2 →
      ∀ t ∈ b2.succs, isEvicted c addr len t = false) := by
  have hlook : ∀ a, lookupBlock (InvalidateRange c addr len) a =
      match c.blocks a with
      | none => none
      | some b =>
        if overlapsRange addr len b then none
        else some { b with succs := b.succs.filter (fun t => !isEvicted c addr len t) } :=
    fun _ => rfl
  constructor
  · unfold lookupBlock at hfind
    rw [hlook, hfind]
    simp [hover]
  · intro a b2 hb2 t ht
    rw [hlook] at hb2
    cases ha : c.blocks a with
    | none => rw [ha] at hb2; exact Option.noConfusion hb2
    | some b0 =>
      rw [ha] at hb2
      by_cases hov : overlapsRange addr len b0 = true
      · simp [hov] at hb2
      · simp only [hov, if_false, Bool.false_eq_true, Option.some.injEq] at hb2
        subst hb2
        simp only [List.mem_filter, Bool.not_eq_true'] at ht
        exact ht.2

/-- Witness for C6: a two-block cache where block 16 chains into block 0 and a
write overlaps block 0's span. -/
theorem invalidate_range_evicts_stale_blocks_and_chains_witness :
    lookupBlock (InvalidateRange
      ⟨fun a => if a = 0 then some ⟨0, 8, [16]⟩ else
        if a = 16 then some ⟨16, 8, [0]⟩ else none⟩ 4 4) 0 = none ∧
    (∀ a b2, lookupBlock (InvalidateRange
      ⟨fun a => if a = 0 then some ⟨0, 8, [16]⟩ else
        if a = 16 then some ⟨16, 8, [0]⟩ else none⟩ 4 4) a = some b2 →
      ∀ t ∈ b2.succs, isEvicted
        ⟨fun a => if a = 0 then some ⟨0, 8, [16]⟩ else
          if a = 16 then some ⟨16, 8, [0]⟩ else none⟩ 4 4 t = false) :=
  invalidate_range_evicts_stale_blocks_and_chains
    ⟨fun a => if a = 0 then some ⟨0, 8, [16]⟩ else
      if a = 16 then some ⟨16, 8, [0]⟩ else none⟩ 4 4 0 ⟨0, 8, [16]⟩ rfl (by decide)

/-! ### APT service: ReceiveParameter / GlanceParameter (`apt.cpp`)

The service functions mutate the IPC command buffer, guest memory and the
kernel handle table; they are embedded as state transformers. The sequential
u32 stores to distinct command-buffer words are embedded as one updated
buffer function whose value at each word is the stored value. -/

/-- The pending APT message parameter (`MessageParameter`). -/
structure MessageParameter where
  sender_id : Nat
  destination_id : Nat
  signal : Nat
  buffer_size : Nat
  object : Option Nat
  data : Option (Nat → Nat)

/-- The APT module state the two functions touch: command buffer (u32 words),
guest memory (bytes), the handle table's next free handle, and the pending
`next_parameter`. -/
structure AptState where
  cmd : Nat → Nat
  mem : Nat → Nat
  nextHandle : Nat
  next_parameter : MessageParameter

/-- Value of `RESULT_SUCCESS.raw`. -/
def RESULT_SUCCESS_raw : Nat := 0

/-- Embedding of `ReceiveParameter` (`apt.cpp`): read `buffer_size` from word 2
and the destination buffer address from word `0x104 >> 2`; write words 1-8
(success, sender id, signal, parameter size, 0x10, created handle when the
parameter carries an object, the static-buffer descriptor, the buffer
address); copy `min(buffer_size, next_parameter.buffer_size)` bytes of the
parameter data into the buffer. `next_parameter` itself is not modified. -/
def ReceiveParameter (st : AptState) : AptState :=
  let buffer_size := st.cmd 2
  let buffer := st.cmd (0x104 / 4)
  let p := st.next_parameter
  let handleVal : Nat :=
    match p.object with
    | some _ => st.nextHandle
    | none => 0
  let nextHandle2 : Nat :=
    match p.object with
    | some _ => st.nextHandle + 1
    | none => st.nextHandle
  let cmd2 : Nat → Nat := fun j =>
    if j = 1 then RESULT_SUCCESS_raw
    else if j = 2 then p.sender_id
    else if j = 3 then p.signal
    else if j = 4 then p.buffer_size
    else if j = 5 then 0x10
    else if j = 6 then handleVal
    else if j = 7 then w32 ((p.buffer_size <<< 14) ||| 2)
    else if j = 8 then buffer
    else st.cmd j
  let mem2 : Nat → Nat :=
    match p.data with
    | some src => fun a =>
        if buffer ≤ a ∧ a < buffer + min buffer_size p.buffer_size
        then src (a - buffer) else st.mem a
    | none => st.mem
  { cmd := cmd2, mem := mem2, nextHandle := nextHandle2,
    next_parameter := st.next_parameter }

/-- Embedding of `GlanceParameter` (`apt.cpp`): its body is identical to
`ReceiveParameter`'s, word for word. -/
def GlanceParameter (st : AptState) : AptState :=
  let buffer_size := st.cmd 2
  let buffer := st.cmd (0x104 / 4)
  let p := st.next_parameter
  let handleVal : Nat :=
    match p.object with
    | some _ => st.nextHandle
    | none => 0
  let nextHandle2 : Nat :=
    match p.object with
    | some _ => st.nextHandle + 1
    | none => st.nextHandle
  let cmd2 : Nat → Nat := fun j =>
    if j = 1 then RESULT_SUCCESS_raw
    else if j = 2 then p.sender_id
    else if j = 3 then p.signal
    else if j = 4 then p.buffer_size
    else if j = 5 then 0x10
    else if j = 6 then handleVal
    else if j = 7 then w32 ((p.buffer_size <<< 14) ||| 2)
    else if j = 8 then buffer
    else st.cmd j
  let mem2 : Nat → Nat :=
    match p.data with
    | some src => fun a =>
        if buffer ≤ a ∧ a < buffer + min buffer_size p.buffer_size
        then src (a - buffer) else st.mem a
    | none => st.mem
  { cmd := cmd2, mem := mem2, nextHandle := nextHandle2,
    next_parameter := st.next_parameter }

/-- C5: for every pending `next_parameter` and every command-buffer,
guest-memory and handle-table state, `ReceiveParameter` and `GlanceParameter`
are observationally equivalent — identical resulting states, hence identical
command-buffer words 1-8 and the same `min(buffer_size,
next_parameter.buffer_size)` copied bytes — and neither clears or consumes
`next_parameter`, so a following call to either yields the same parameter
data (words 2, 3, 4 and 7 again). -/
theorem receiveParameter_equals_glanceParameter (st : AptState) :
    ReceiveParameter st = GlanceParameter st ∧
    (ReceiveParameter st).next_parameter = st.next_parameter ∧
    (GlanceParameter st).next_parameter = st.next_parameter ∧
    (GlanceParameter (ReceiveParameter st)).cmd 2 = (ReceiveParameter st).cmd 2 ∧
    (GlanceParameter (ReceiveParameter st)).cmd 3 = (ReceiveParameter st).cmd 3 ∧
    (GlanceParameter (ReceiveParameter st)).cmd 4 = (ReceiveParameter st).cmd 4 ∧
    (GlanceParameter (ReceiveParameter st)).cmd 7 = (ReceiveParameter st).cmd 7 :=
  ⟨rfl, rfl, rfl, rfl, rfl, rfl, rfl⟩

/-! ### APT shared system font relocation (`apt.cpp`)

`RelocateSharedFont` walks the BCFNT block stream: `num_blocks` iterations,
each reading the 4-byte magic of the block under the data pointer; a
recognized FINF/CMAP/CWDH/TGLP section has the constant delta
`new_address - previous_address` added to its stored offsets and the pointer
advances by its `section_size`; an unrecognized block leaves `section_size`
at 0, so the pointer does not advance. The byte stream after the CFNT header
is embedded at section granularity. -/

/-- One block of the BCFNT shared font, at the granularity the relocation
loop visits. Recognized kinds carry their `section_size` and the offset
fields the loop rewrites. -/
inductive FontSection
  | finf (section_size tglp_offset cwdh_offset cmap_offset : Nat)
  | cmap (section_size next_cmap_offset : Nat)
  | cwdh (section_size next_cwdh_offset : Nat)
  | tglp (section_size sheet_data_offset : Nat)
  | unknown
  deriving DecidableEq, Repr

/-- The shared font memory: the CFNT header fields the loop consults and the
block stream after the header. -/
structure SharedFontMem where
  header_size : Nat
  num_blocks : Nat
  sections : List FontSection
  deriving DecidableEq, Repr

/-- The delta added to each stored offset: `new_address - previous_address`
computed on 32-bit addresses (wraps modulo 2^32). -/
def relocationDelta (previous_address new_address : Nat) : Nat :=
  w32 (new_address + (2^32 - previous_address % 2^32))

/-- Rewriting of one recognized section: add the delta to each stored offset
(u32 addition, truncated to 32 bits). -/
def relocateSection (delta : Nat) : FontSection → FontSection
  | .finf ss t c m => .finf ss (w32 (t + delta)) (w32 (c + delta)) (w32 (m + delta))
  | .cmap ss n => .cmap ss (w32 (n + delta))
  | .cwdh ss n => .cwdh ss (w32 (n + delta))
  | .tglp ss sd => .tglp ss (w32 (sd + delta))
  | .unknown => .unknown

/-- The relocation loop: one iteration per counted block. A recognized
section is rewritten in place and the data pointer advances past it; an
unrecognized block contributes a zero advance, so the remaining iterations
revisit it without further effect. -/
def relocateBlocks (delta : Nat) : Nat → List FontSection → List FontSection
  | 0, secs => secs
  | _b+1, [] => []
  | b+1, .unknown :: rest => relocateBlocks delta b (.unknown :: rest)
  | b+1, sec :: rest => relocateSection delta sec :: relocateBlocks delta b rest

/-- Embedding of `RelocateSharedFont(previous_address, new_address)`. -/
def RelocateSharedFont (previous_address new_address : Nat)
    (font : SharedFontMem) : SharedFontMem :=
  { font with sections :=
      (relocateBlocks (relocationDelta previous_address new_address)
        font.num_blocks font.sections) }

/-- The APT module state for the shared font: the font memory object, its
linear-heap physical address, and the `shared_font_relocated` flag. -/
structure AptFontState where
  shared_font_mem : SharedFontMem
  linear_heap_phys_address : Nat
  shared_font_relocated : Bool
  deriving DecidableEq, Repr

/-- Base address the dumped shared font uses for its offsets. -/
def SHARED_FONT_VADDR : Nat := 0x18000000

/-- Modelled from the spec: `Memory::PhysicalToVirtualAddress` (not among the
provided sources) is a fixed linear-heap address translation; its exact
constant is immaterial to the claims about relocation. -/
def PhysicalToVirtualAddress (p : Nat) : Nat := w32 (p + 0x14000000)

/-- Embedding of `GetSharedFont` restricted to the state the claim concerns:
compute the target address; if the font has not been relocated yet, call
`RelocateSharedFont` from the dump base to the target address (which also
sets `shared_font_relocated`); otherwise leave the font untouched. -/
def GetSharedFont (st : AptFontState) : AptFontState :=
  let target_address := PhysicalToVirtualAddress st.linear_heap_phys_address
  if !st.shared_font_relocated then
    { st with
      shared_font_mem :=
        RelocateSharedFont SHARED_FONT_VADDR target_address st.shared_font_mem,
      shared_font_relocated := true }
  else st

/-- C9: shared-font relocation happens at most once: the first `GetSharedFont`
call invokes `RelocateSharedFont` (adding the constant delta to the offsets of
each recognized FINF/CMAP/CWDH/TGLP section) and sets `shared_font_relocated`;
every later call skips relocation, so repeated calls leave the font memory
unchanged after the first — `GetSharedFont` is idempotent on the font data. -/
theorem getSharedFont_relocates_at_most_once (st : AptFontState)
    (h : st.shared_font_relocated = false) :
    (GetSharedFont st).shared_font_relocated = true ∧
    (GetSharedFont st).shared_font_mem =
      RelocateSharedFont SHARED_FONT_VADDR
        (PhysicalToVirtualAddress st.linear_heap_phys_address) st.shared_font_mem ∧
    GetSharedFont (GetSharedFont st) = GetSharedFont st ∧
    (∀ st2 : AptFontState, st2.shared_font_relocated = true → GetSharedFont st2 = st2) ∧
    (∀ delta ss t c m, relocateSection delta (.finf ss t c m) =
      .finf ss (w32 (t + delta)) (w32 (c + delta)) (w32 (m + delta))) ∧
    (∀ delta ss n, relocateSection delta (.cmap ss n) = .cmap ss (w32 (n + delta))) ∧
    (∀ delta ss n, relocateSection delta (.cwdh ss n) = .cwdh ss (w32 (n + delta))) ∧
    (∀ delta ss sd, relocateSection delta (.tglp ss sd) = .tglp ss (w32 (sd + delta))) := by
  have hid : ∀ st2 : AptFontState, st2.shared_font_relocated = true →
      GetSharedFont st2 = st2 := by
    intro st2 h2
    simp [GetSharedFont, h2]
  have h1 : (GetSharedFont st).shared_font_relocated = true := by
    simp [GetSharedFont, h]
  refine ⟨h1, ?_, hid _ h1, hid, fun _ _ _ _ _ => rfl, fun _ _ _ => rfl,
    fun _ _ _ => rfl, fun _ _ _ => rfl⟩
  simp [GetSharedFont, h]

/-- Witness for C9 at a concrete unrelocated font state. -/
theorem getSharedFont_relocates_at_most_once_witness :
    (GetSharedFont ⟨⟨0x14, 1, [FontSection.cmap 8 4]⟩, 0, false⟩).shared_font_relocated = true ∧
    (GetSharedFont ⟨⟨0x14, 1, [FontSection.cmap 8 4]⟩, 0, false⟩).shared_font_mem =
      RelocateSharedFont SHARED_FONT_VADDR
        (PhysicalToVirtualAddress (0 : Nat)) ⟨0x14, 1, [FontSection.cmap 8 4]⟩ ∧
    GetSharedFont (GetSharedFont ⟨⟨0x14, 1, [FontSection.cmap 8 4]⟩, 0, false⟩) =
      GetSharedFont ⟨⟨0x14, 1, [FontSection.cmap 8 4]⟩, 0, false⟩ ∧
    (∀ st2 : AptFontState, st2.shared_font_relocated = true → GetSharedFont st2 = st2) ∧
    (∀ delta ss t c m, relocateSection delta (.finf ss t c m) =
      .finf ss (w32 (t + delta)) (w32 (c + delta)) (w32 (m + delta))) ∧
    (∀ delta ss n, relocateSection delta (.cmap ss n) = .cmap ss (w32 (n + delta))) ∧
    (∀ delta ss n, relocateSection delta (.cwdh ss n) = .cwdh ss (w32 (n + delta))) ∧
    (∀ delta ss sd, relocateSection delta (.tglp ss sd) = .tglp ss (w32 (sd + delta))) :=
  getSharedFont_relocates_at_most_once ⟨⟨0x14, 1, [FontSection.cmap 8 4]⟩, 0, false⟩ rfl

end Spec2Proof
